import Mathlib

/-!
Shallow embedding of the fuel-optimization engine
(`src/optimization_engine.py`, with the jet-stream analysis from
`src/weather_service.py` that `optimize_flight` calls), over exact
rationals.  Python's `round(x, n)` (round-half-to-even) is modelled
exactly; the transcendental operations used by the haversine formula
(`math.pi`, `math.sin`, `math.cos`, `math.asin`, `math.sqrt`) are
abstracted as a parameter record `TrigOps`, so that every definition
stays executable and theorems quantify over the analytic facts they
need (oddness of `sin`, `sqrt 0 = 0`, ...).  Fallible Python code
(`ZeroDivisionError`) is modelled with `Option`.
-/

namespace FuelOpt

/-- Round to the nearest integer, ties to the even integer —
the rounding Python's builtin `round` uses. -/
def roundHalfEven (x : ℚ) : ℤ :=
  let f := ⌊x⌋
  let r := x - (f : ℚ)
  if r < 1/2 then f
  else if 1/2 < r then f + 1
  else if Even f then f else f + 1

/-- Python `round(x, 1)`. -/
def round1 (x : ℚ) : ℚ := (roundHalfEven (x * 10) : ℚ) / 10

/-- Python `round(x, 2)`. -/
def round2 (x : ℚ) : ℚ := (roundHalfEven (x * 100) : ℚ) / 100

/-- Python `round(x, 3)`. -/
def round3 (x : ℚ) : ℚ := (roundHalfEven (x * 1000) : ℚ) / 1000

/-- Model of `models.Waypoint` (the `pydantic` model; the optional altitude field
is never read by the engine but kept for fidelity). -/
structure Waypoint where
  name : String
  latitude : ℚ
  longitude : ℚ
  altitude : Option ℤ := none
deriving DecidableEq, Inhabited

/-- Model of `models.WeatherCondition` (timestamp and raw-METAR string omitted:
they are opaque text/time fields never read by the engine). -/
structure WeatherCondition where
  location : String
  temperature : ℚ
  wind_speed : ℤ
  wind_direction : ℤ
  visibility : ℚ
  conditions : String
deriving DecidableEq, Inhabited

/-- Model of `models.AircraftPerformance`. -/
structure AircraftPerformance where
  aircraft_type : String
  max_cruise_altitude : ℤ
  optimal_cruise_altitude : ℤ
  cruise_speed : ℤ
  fuel_capacity : ℤ
  fuel_burn_rate_base : ℚ
  weight_empty : ℤ
  max_payload : ℤ
deriving DecidableEq, Inhabited

/-- Model of `models.FlightPlan` (departure time omitted: never read by the engine). -/
structure FlightPlan where
  flight_id : String
  origin : String
  destination : String
  aircraft_type : String
  route_waypoints : List Waypoint
  planned_fuel : ℚ
  cruise_altitude : ℤ := 36000
  estimated_duration : ℤ := 300
  passenger_count : ℤ := 150
  cargo_weight : ℤ := 5000
deriving DecidableEq, Inhabited

/-- Model of `models.RecommendationType`. -/
inductive RecommendationType where
  | ROUTE_MODIFICATION
  | ALTITUDE_OPTIMIZATION
  | DELAY_RECOMMENDATION
  | RE_DISPATCH
deriving DecidableEq, Inhabited

/-- The dict returned by `estimate_fuel_consumption`. -/
structure FuelEstimate where
  distance_nm : ℚ
  flight_time_hours : ℚ
  fuel_burn_rate : ℚ
  cruise_fuel : ℚ
  reserve_fuel : ℚ
  total_fuel : ℚ
  altitude_factor : ℚ
  weight_factor : ℚ
  avg_wind_impact : ℚ
  ground_speed : ℚ
deriving DecidableEq, Inhabited

/-- Model of `models.OptimizationResult` (the `rationale` and `weather_factors`
string fields are omitted: their assembly in `optimize_flight` is
effect-free string formatting that no claim concerns). -/
structure OptimizationResult where
  flight_id : String
  original_fuel : ℚ
  optimized_fuel : ℚ
  fuel_savings : ℚ
  savings_percentage : ℚ
  time_impact : ℤ
  confidence_score : ℚ
  recommendation_type : RecommendationType
  optimized_altitude : ℤ
  cost_savings : ℚ
deriving DecidableEq, Inhabited

/-- The transcendental operations `calculate_distance` uses
(`math.radians` is `· * pi / 180`), abstracted as data. -/
structure TrigOps where
  pi : ℚ
  sin : ℚ → ℚ
  cos : ℚ → ℚ
  asin : ℚ → ℚ
  sqrt : ℚ → ℚ

/-- Python `math.radians`. -/
def radians (t : TrigOps) (deg : ℚ) : ℚ := deg * t.pi / 180

/-- Source `FuelOptimizationEngine.calculate_distance`: haversine great-circle
distance in nautical miles. -/
def calculate_distance (t : TrigOps) (point1 point2 : Waypoint) : ℚ :=
  let lat1 := radians t point1.latitude
  let lon1 := radians t point1.longitude
  let lat2 := radians t point2.latitude
  let lon2 := radians t point2.longitude
  let dlat := lat2 - lat1
  let dlon := lon2 - lon1
  let a := (t.sin (dlat/2))^2 + t.cos lat1 * t.cos lat2 * (t.sin (dlon/2))^2
  let c := 2 * t.asin (t.sqrt a)
  c * 3440.065

/-- Source `FuelOptimizationEngine.calculate_route_distance`: sum of leg
distances over consecutive waypoint pairs. -/
def calculate_route_distance (t : TrigOps) (waypoints : List Waypoint) : ℚ :=
  (List.zipWith (calculate_distance t) waypoints waypoints.tail).sum

/-- Source `FuelOptimizationEngine.FUEL_PRICE_PER_KG`. -/
def FUEL_PRICE_PER_KG : ℚ := 0.85

/-- Entry `AIRCRAFT_DB["B737-800"]`. -/
def B737_800 : AircraftPerformance :=
  { aircraft_type := "B737-800", max_cruise_altitude := 41000,
    optimal_cruise_altitude := 36000, cruise_speed := 450,
    fuel_capacity := 26000, fuel_burn_rate_base := 2400,
    weight_empty := 42000, max_payload := 20000 }

/-- Entry `AIRCRAFT_DB["A320"]`. -/
def A320 : AircraftPerformance :=
  { aircraft_type := "A320", max_cruise_altitude := 39000,
    optimal_cruise_altitude := 35000, cruise_speed := 447,
    fuel_capacity := 24000, fuel_burn_rate_base := 2300,
    weight_empty := 42400, max_payload := 19000 }

/-- Entry `AIRCRAFT_DB["B777-300"]`. -/
def B777_300 : AircraftPerformance :=
  { aircraft_type := "B777-300", max_cruise_altitude := 43100,
    optimal_cruise_altitude := 38000, cruise_speed := 490,
    fuel_capacity := 181000, fuel_burn_rate_base := 7500,
    weight_empty := 167800, max_payload := 70000 }

/-- The `AIRCRAFT_DB` dict as a partial lookup. -/
def AIRCRAFT_DB (key : String) : Option AircraftPerformance :=
  if key = "B737-800" then some B737_800
  else if key = "A320" then some A320
  else if key = "B777-300" then some B777_300
  else none

/-- Lookup `self.AIRCRAFT_DB.get(aircraft_type, self.AIRCRAFT_DB["B737-800"])`:
lookup with the B737-800 default. -/
def lookup_aircraft (key : String) : AircraftPerformance :=
  (AIRCRAFT_DB key).getD B737_800

/-- Source `FuelOptimizationEngine._calculate_altitude_factor`. -/
def calculate_altitude_factor (altitude optimal_altitude : ℤ) : ℚ :=
  let deviation := |altitude - optimal_altitude|
  1.0 + ((deviation : ℚ) / 2000) * 0.015

/-- The per-reading wind component of `_calculate_wind_impact`
(source lines 302–304): `wind_speed * 0.5`, negated when
`wind_direction > 180`. -/
def windComponent (weather : WeatherCondition) : ℚ :=
  let wind_component := (weather.wind_speed : ℚ) * 0.5
  if weather.wind_direction > 180 then -wind_component else wind_component

/-- The accumulation loop of `_calculate_wind_impact`:
`for i, weather in enumerate(weather_data): if i < len(waypoints) - 1:
total_impact += component`, transcribed as recursion carrying the index
`i`.  `n` is `len(route_waypoints) - 1` as a natural number: for a
0-waypoint route Python compares `i < -1`, which, like `i < 0`, never
holds. -/
def windImpactSum (n : ℕ) : ℕ → List WeatherCondition → ℚ
  | _, [] => 0
  | i, w :: rest => (if i < n then windComponent w else 0) + windImpactSum n (i + 1) rest

/-- Source `FuelOptimizationEngine._calculate_wind_impact`. -/
def calculate_wind_impact (flight_plan : FlightPlan) (weather_data : List WeatherCondition) : ℚ :=
  if weather_data = [] then 0
  else
    let total_impact := windImpactSum (flight_plan.route_waypoints.length - 1) 0 weather_data
    total_impact / (weather_data.length : ℚ)

/-- Source `FuelOptimizationEngine.estimate_fuel_consumption`.  Returns `none`
exactly where Python raises `ZeroDivisionError`: when the computed
ground speed is zero. -/
def estimate_fuel_consumption (t : TrigOps) (flight_plan : FlightPlan)
    (weather_data : List WeatherCondition) (altitude : ℤ) : Option FuelEstimate :=
  let aircraft := lookup_aircraft flight_plan.aircraft_type
  let distance := calculate_route_distance t flight_plan.route_waypoints
  let altitude_factor := calculate_altitude_factor altitude aircraft.optimal_cruise_altitude
  let total_weight := aircraft.weight_empty + flight_plan.cargo_weight + flight_plan.passenger_count * 90
  let weight_factor := 1 + (((total_weight - aircraft.weight_empty : ℤ) : ℚ) / (aircraft.weight_empty : ℚ)) * 0.15
  let fuel_burn_rate := aircraft.fuel_burn_rate_base * altitude_factor * weight_factor
  let avg_wind_impact := calculate_wind_impact flight_plan weather_data
  let ground_speed := (aircraft.cruise_speed : ℚ) + avg_wind_impact
  if ground_speed = 0 then none
  else
    let flight_time_hours := distance / ground_speed
    let total_fuel := fuel_burn_rate * flight_time_hours
    let reserve_fuel := total_fuel * 0.05 + fuel_burn_rate * 0.5
    let total_fuel_with_reserves := total_fuel + reserve_fuel
    some { distance_nm := round1 distance,
           flight_time_hours := round2 flight_time_hours,
           fuel_burn_rate := round1 fuel_burn_rate,
           cruise_fuel := round1 total_fuel,
           reserve_fuel := round1 reserve_fuel,
           total_fuel := round1 total_fuel_with_reserves,
           altitude_factor := round3 altitude_factor,
           weight_factor := round3 weight_factor,
           avg_wind_impact := round1 avg_wind_impact,
           ground_speed := round1 ground_speed }

/-- The dict returned by `WeatherService.get_jet_stream_info`. -/
structure JetStreamInfo where
  present : Bool
  strength : String
  direction : Option String
  benefit : Option String
deriving DecidableEq, Inhabited

/-- Source `WeatherService.get_jet_stream_info`.  Returns `none` exactly
where Python raises `ZeroDivisionError`: when the altitude lies in
`[30000, 42000]` and the waypoint list is empty, so that
`sum(...) / len(waypoints)` divides by zero. -/
def get_jet_stream_info (waypoints : List Waypoint) (altitude : ℤ) : Option JetStreamInfo :=
  if 30000 ≤ altitude ∧ altitude ≤ 42000 then
    if waypoints.length = 0 then none
    else
      let avg_latitude := (waypoints.map (fun w => w.latitude)).sum / (waypoints.length : ℚ)
      if 30 ≤ |avg_latitude| ∧ |avg_latitude| ≤ 60 then
        some { present := true, strength := "strong", direction := some "westerly",
               benefit := some "Favorable for westbound flights at this altitude" }
      else
        some { present := false, strength := "none", direction := none, benefit := none }
  else
    some { present := false, strength := "none", direction := none, benefit := none }

/-- The fixed candidate list `altitude_options` of `optimize_flight`. -/
def altitude_options : List ℤ := [32000, 34000, 36000, 38000, 40000]

/-- The altitude-sweep loop of `optimize_flight` (source lines 199–203):
carries the pair `(best_altitude, best_altitude_fuel)` through the
candidate list, replacing it only on strictly smaller total fuel. -/
def altitudeSweep (t : TrigOps) (flight_plan : FlightPlan)
    (weather_data : List WeatherCondition) :
    List ℤ → ℤ × ℚ → Option (ℤ × ℚ)
  | [], best => some best
  | alt :: rest, best =>
    match estimate_fuel_consumption t flight_plan weather_data alt with
    | none => none
    | some fuel_calc =>
      altitudeSweep t flight_plan weather_data rest
        (if fuel_calc.total_fuel < best.2 then (alt, fuel_calc.total_fuel) else best)

/-- Source `FuelOptimizationEngine.optimize_flight`.  The weather list is
the value `self.weather_service.fetch_weather_for_route(...)` returns,
passed as a parameter.  `none` models the propagation of Python
exceptions (zero ground speed, the jet-stream division by zero on an
empty route, and `savings_percentage` division by a zero
`original_fuel`).  The `rationale` / `weather_factors` string assembly
is effect-free and omitted from the result model. -/
def optimize_flight (t : TrigOps) (flight_plan : FlightPlan)
    (weather_data : List WeatherCondition) : Option OptimizationResult :=
  match estimate_fuel_consumption t flight_plan weather_data flight_plan.cruise_altitude with
  | none => none
  | some original_fuel_calc =>
    let original_fuel := original_fuel_calc.total_fuel
    match altitudeSweep t flight_plan weather_data altitude_options
        (flight_plan.cruise_altitude, original_fuel) with
    | none => none
    | some best =>
      let best_altitude := best.1
      match get_jet_stream_info flight_plan.route_waypoints best_altitude with
      | none => none
      | some _jet_stream =>
        match estimate_fuel_consumption t flight_plan weather_data best_altitude with
        | none => none
        | some optimized_fuel_calc =>
          let optimized_fuel := optimized_fuel_calc.total_fuel
          let altitude_change := |best_altitude - flight_plan.cruise_altitude|
          let rec_type := if 4000 ≤ altitude_change
            then RecommendationType.ALTITUDE_OPTIMIZATION
            else RecommendationType.ROUTE_MODIFICATION
          let fuel_savings := original_fuel - optimized_fuel
          if original_fuel = 0 then none
          else
            let savings_percentage := fuel_savings / original_fuel * 100
            let confidence := min 0.95 (0.70 + savings_percentage / 100)
            let time_impact : ℤ := if 4000 ≤ altitude_change then 2 else 0
            some { flight_id := flight_plan.flight_id,
                   original_fuel := original_fuel,
                   optimized_fuel := optimized_fuel,
                   fuel_savings := fuel_savings,
                   savings_percentage := savings_percentage,
                   time_impact := time_impact,
                   confidence_score := confidence,
                   recommendation_type := rec_type,
                   optimized_altitude := best_altitude,
                   cost_savings := fuel_savings * FUEL_PRICE_PER_KG }

/-- The wind impact as the specification words it (§4.2 step 5): the
arithmetic mean, over all readings actually available, of the
per-reading component, and `0` when the reading list is empty.  Written
from the spec only, to be compared with `calculate_wind_impact`. -/
def windImpactSpec (weather_data : List WeatherCondition) : ℚ :=
  if weather_data = [] then 0
  else (weather_data.map windComponent).sum / (weather_data.length : ℚ)

/-- A concrete, fully computable instance of the transcendental
operations, used to evaluate the engine at concrete inputs (`pi := 180`
makes `radians` the identity; `sin`, `asin`, `sqrt` are the identity,
`cos` the constant 1 — the small-angle regime of the real functions). -/
def simpleOps : TrigOps :=
  { pi := 180, sin := id, cos := fun _ => 1, asin := id, sqrt := id }

/-- Loop invariant of the altitude sweep: the final best fuel never
exceeds the initial one, and the final best pair is either the initial
pair or comes from a successful estimate at the final best altitude. -/
theorem altitudeSweep_spec (t : TrigOps) (plan : FlightPlan)
    (w : List WeatherCondition) :
    ∀ (alts : List ℤ) (p q : ℤ × ℚ),
      altitudeSweep t plan w alts p = some q →
      q.2 ≤ p.2 ∧ (q = p ∨ ∃ f, estimate_fuel_consumption t plan w q.1 = some f ∧
        f.total_fuel = q.2) := by
  intro alts
  induction alts with
  | nil =>
    intro p q h
    simp only [altitudeSweep, Option.some.injEq] at h
    subst h
    exact ⟨le_refl _, Or.inl rfl⟩
  | cons alt rest ih =>
    intro p q h
    simp only [altitudeSweep] at h
    cases hE : estimate_fuel_consumption t plan w alt with
    | none => rw [hE] at h; cases h
    | some f =>
      rw [hE] at h
      simp only at h
      by_cases hlt : f.total_fuel < p.2
      · rw [if_pos hlt] at h
        obtain ⟨h1, h2⟩ := ih _ _ h
        refine ⟨le_trans h1 (le_of_lt hlt), ?_⟩
        rcases h2 with h2 | h2
        · subst h2
          exact Or.inr ⟨f, hE, rfl⟩
        · exact Or.inr h2
      · rw [if_neg hlt] at h
        exact ih _ _ h

/-- Structural description of a successful `optimize_flight` run: there
are an original estimate `o`, a best altitude `ba` and its estimate
`oc`, with `oc.total_fuel ≤ o.total_fuel` (the sweep is seeded with the
requested altitude and replaces only on strictly smaller fuel), the
original total is nonzero, and the returned record is built from them
exactly as the source builds it. -/
theorem optimize_spec (t : TrigOps) (plan : FlightPlan)
    (w : List WeatherCondition) (r : OptimizationResult)
    (h : optimize_flight t plan w = some r) :
    ∃ (o oc : FuelEstimate) (ba : ℤ),
      estimate_fuel_consumption t plan w plan.cruise_altitude = some o ∧
      estimate_fuel_consumption t plan w ba = some oc ∧
      oc.total_fuel ≤ o.total_fuel ∧
      o.total_fuel ≠ 0 ∧
      r = { flight_id := plan.flight_id,
            original_fuel := o.total_fuel,
            optimized_fuel := oc.total_fuel,
            fuel_savings := o.total_fuel - oc.total_fuel,
            savings_percentage := (o.total_fuel - oc.total_fuel) / o.total_fuel * 100,
            time_impact := if 4000 ≤ |ba - plan.cruise_altitude| then 2 else 0,
            confidence_score := min 0.95
              (0.70 + (o.total_fuel - oc.total_fuel) / o.total_fuel * 100 / 100),
            recommendation_type := if 4000 ≤ |ba - plan.cruise_altitude|
              then RecommendationType.ALTITUDE_OPTIMIZATION
              else RecommendationType.ROUTE_MODIFICATION,
            optimized_altitude := ba,
            cost_savings := (o.total_fuel - oc.total_fuel) * FUEL_PRICE_PER_KG } := by
  unfold optimize_flight at h
  cases hO : estimate_fuel_consumption t plan w plan.cruise_altitude with
  | none => rw [hO] at h; cases h
  | some o =>
    rw [hO] at h
    simp only at h
    cases hS : altitudeSweep t plan w altitude_options (plan.cruise_altitude, o.total_fuel) with
    | none => rw [hS] at h; cases h
    | some best =>
      rw [hS] at h
      simp only at h
      cases hJ : get_jet_stream_info plan.route_waypoints best.1 with
      | none => rw [hJ] at h; cases h
      | some js =>
        rw [hJ] at h
        simp only at h
        cases hC : estimate_fuel_consumption t plan w best.1 with
        | none => rw [hC] at h; cases h
        | some oc =>
          rw [hC] at h
          simp only at h
          by_cases hz : o.total_fuel = 0
          · rw [if_pos hz] at h; cases h
          · rw [if_neg hz] at h
            obtain ⟨hle, hbest⟩ := altitudeSweep_spec t plan w _ _ _ hS
            have hocle : oc.total_fuel ≤ o.total_fuel := by
              rcases hbest with hb | ⟨f, hf, hft⟩
              · have h1 : best.1 = plan.cruise_altitude := congrArg Prod.fst hb
                rw [h1, hO] at hC
                cases hC
                exact le_refl _
              · rw [hf] at hC
                cases hC
                exact le_trans (le_of_eq hft) hle
            refine ⟨o, oc, best.1, rfl, hC, hocle, hz, ?_⟩
            cases h
            rfl

/-- C1: for every FlightPlan and every list of weather readings, a
result of `optimize_flight` satisfies
`fuel_savings = original_fuel - optimized_fuel` and
`fuel_savings ≥ 0`: the sweep is seeded with the requested cruise
altitude and a candidate replaces the best only on strictly smaller
total fuel. -/
theorem C1_fuel_savings_nonneg (t : TrigOps) (plan : FlightPlan)
    (w : List WeatherCondition) (r : OptimizationResult)
    (h : optimize_flight t plan w = some r) :
    r.fuel_savings = r.original_fuel - r.optimized_fuel ∧ 0 ≤ r.fuel_savings := by
  obtain ⟨o, oc, ba, _, _, hle, _, rfl⟩ := optimize_spec t plan w r h
  exact ⟨rfl, by simp only; linarith⟩

/-- A concrete single-waypoint plan used to evaluate the engine
(all other fields take the model defaults: B737-800 at FL360, 150
passengers, 5000 kg cargo). -/
def plan1 : FlightPlan :=
  { flight_id := "T1", origin := "A", destination := "A",
    aircraft_type := "B737-800",
    route_waypoints := [{ name := "A", latitude := 40, longitude := -73 }],
    planned_fuel := 15000 }

/-- The fully evaluated estimate for `plan1` at the requested altitude
36000 with no weather readings. -/
def est1 : FuelEstimate :=
  { distance_nm := 0, flight_time_hours := 0, fuel_burn_rate := 12793/5,
    cruise_fuel := 0, reserve_fuel := 12793/10, total_fuel := 12793/10,
    altitude_factor := 1, weight_factor := 533/500, avg_wind_impact := 0,
    ground_speed := 450 }

theorem est_plan1_36000 :
    estimate_fuel_consumption simpleOps plan1 [] 36000 = some est1 := by
  norm_num [est1, estimate_fuel_consumption, lookup_aircraft, AIRCRAFT_DB, B737_800, plan1,
    calculate_route_distance, calculate_distance, calculate_wind_impact,
    calculate_altitude_factor, round1, round2, round3, roundHalfEven]

theorem est_plan1_32000 :
    estimate_fuel_consumption simpleOps plan1 [] 32000 =
    some { distance_nm := 0, flight_time_hours := 0, fuel_burn_rate := 26353/10,
           cruise_fuel := 0, reserve_fuel := 13177/10, total_fuel := 13177/10,
           altitude_factor := 103/100, weight_factor := 533/500, avg_wind_impact := 0,
           ground_speed := 450 } := by
  norm_num [estimate_fuel_consumption, lookup_aircraft, AIRCRAFT_DB, B737_800, plan1,
    calculate_route_distance, calculate_distance, calculate_wind_impact,
    calculate_altitude_factor, round1, round2, round3, roundHalfEven]

theorem est_plan1_34000 :
    estimate_fuel_consumption simpleOps plan1 [] 34000 =
    some { distance_nm := 0, flight_time_hours := 0, fuel_burn_rate := 2597,
           cruise_fuel := 0, reserve_fuel := 2597/2, total_fuel := 2597/2,
           altitude_factor := 203/200, weight_factor := 533/500, avg_wind_impact := 0,
           ground_speed := 450 } := by
  norm_num [estimate_fuel_consumption, lookup_aircraft, AIRCRAFT_DB, B737_800, plan1,
    calculate_route_distance, calculate_distance, calculate_wind_impact,
    calculate_altitude_factor, round1, round2, round3, roundHalfEven, Int.even_iff]

theorem est_plan1_38000 :
    estimate_fuel_consumption simpleOps plan1 [] 38000 =
    some { distance_nm := 0, flight_time_hours := 0, fuel_burn_rate := 2597,
           cruise_fuel := 0, reserve_fuel := 2597/2, total_fuel := 2597/2,
           altitude_factor := 203/200, weight_factor := 533/500, avg_wind_impact := 0,
           ground_speed := 450 } := by
  norm_num [estimate_fuel_consumption, lookup_aircraft, AIRCRAFT_DB, B737_800, plan1,
    calculate_route_distance, calculate_distance, calculate_wind_impact,
    calculate_altitude_factor, round1, round2, round3, roundHalfEven, Int.even_iff]

theorem est_plan1_40000 :
    estimate_fuel_consumption simpleOps plan1 [] 40000 =
    some { distance_nm := 0, flight_time_hours := 0, fuel_burn_rate := 26353/10,
           cruise_fuel := 0, reserve_fuel := 13177/10, total_fuel := 13177/10,
           altitude_factor := 103/100, weight_factor := 533/500, avg_wind_impact := 0,
           ground_speed := 450 } := by
  norm_num [estimate_fuel_consumption, lookup_aircraft, AIRCRAFT_DB, B737_800, plan1,
    calculate_route_distance, calculate_distance, calculate_wind_impact,
    calculate_altitude_factor, round1, round2, round3, roundHalfEven]

theorem sweep_plan1 :
    altitudeSweep simpleOps plan1 [] altitude_options (36000, 12793/10) =
    some (36000, 12793/10) := by
  norm_num [altitude_options, altitudeSweep, est1, est_plan1_32000, est_plan1_34000,
    est_plan1_36000, est_plan1_38000, est_plan1_40000]

/-- The fully evaluated result of `optimize_flight` on `plan1` with no
weather readings. -/
def res1 : OptimizationResult :=
  { flight_id := "T1", original_fuel := 12793/10, optimized_fuel := 12793/10,
    fuel_savings := 0, savings_percentage := 0, time_impact := 0,
    confidence_score := 7/10,
    recommendation_type := RecommendationType.ROUTE_MODIFICATION,
    optimized_altitude := 36000, cost_savings := 0 }

theorem optimize_plan1 : optimize_flight simpleOps plan1 [] = some res1 := by
  have h36 : plan1.cruise_altitude = 36000 := rfl
  have hwp : plan1.route_waypoints = [{ name := "A", latitude := 40, longitude := -73 }] := rfl
  have hfid : plan1.flight_id = "T1" := rfl
  norm_num [optimize_flight, h36, hwp, hfid, est1, est_plan1_36000, sweep_plan1,
    get_jet_stream_info, res1, FUEL_PRICE_PER_KG, min_def]

/-- C1 witness: the theorem applied to the concrete plan `plan1` with no
weather readings, whose optimization result is `res1`. -/
theorem C1_witness :
    res1.fuel_savings = res1.original_fuel - res1.optimized_fuel ∧
    0 ≤ res1.fuel_savings :=
  C1_fuel_savings_nonneg simpleOps plan1 [] res1 optimize_plan1

/-- C6: for every optimization result, with
`altitude_change = |best_altitude - requested_altitude|`: if
`altitude_change ≥ 4000` the recommendation type is
`ALTITUDE_OPTIMIZATION` and the time impact is 2 minutes, otherwise the
type is `ROUTE_MODIFICATION` and the time impact is 0. -/
theorem C6_recommendation_classification (t : TrigOps) (plan : FlightPlan)
    (w : List WeatherCondition) (r : OptimizationResult)
    (h : optimize_flight t plan w = some r) :
    (4000 ≤ |r.optimized_altitude - plan.cruise_altitude| →
      r.recommendation_type = RecommendationType.ALTITUDE_OPTIMIZATION ∧
      r.time_impact = 2) ∧
    (|r.optimized_altitude - plan.cruise_altitude| < 4000 →
      r.recommendation_type = RecommendationType.ROUTE_MODIFICATION ∧
      r.time_impact = 0) := by
  obtain ⟨o, oc, ba, _, _, _, _, rfl⟩ := optimize_spec t plan w r h
  dsimp only
  constructor
  · intro h4
    rw [if_pos h4, if_pos h4]
    exact ⟨rfl, rfl⟩
  · intro h4
    have h4' : ¬ (4000 ≤ |ba - plan.cruise_altitude|) := not_le.mpr h4
    rw [if_neg h4', if_neg h4']
    exact ⟨rfl, rfl⟩

/-- C6 witness: on `plan1` the best altitude equals the requested one,
so the altitude change is below 4000 and the second branch applies. -/
theorem C6_witness :
    res1.recommendation_type = RecommendationType.ROUTE_MODIFICATION ∧
    res1.time_impact = 0 :=
  (C6_recommendation_classification simpleOps plan1 [] res1 optimize_plan1).2
    (by norm_num [res1, plan1])

/-- C5 as amended: the confidence score always equals
`min(0.95, 0.70 + savings_percentage/100)` and never exceeds 0.95; it is
at least 0.70 whenever the original fuel estimate is positive (the
claimed unconditional lower bound fails when the unguarded ground speed
makes the original fuel negative). -/
theorem C5_confidence_formula (t : TrigOps) (plan : FlightPlan)
    (w : List WeatherCondition) (r : OptimizationResult)
    (h : optimize_flight t plan w = some r) :
    r.confidence_score = min 0.95 (0.70 + r.savings_percentage / 100) ∧
    r.confidence_score ≤ 0.95 ∧
    (0 < r.original_fuel → 0.70 ≤ r.confidence_score) := by
  obtain ⟨o, oc, ba, _, _, hle, _, rfl⟩ := optimize_spec t plan w r h
  dsimp only
  refine ⟨rfl, min_le_left _ _, ?_⟩
  intro hpos
  refine le_min (by norm_num) ?_
  have hsp : 0 ≤ (o.total_fuel - oc.total_fuel) / o.total_fuel * 100 / 100 := by
    have h1 : 0 ≤ o.total_fuel - oc.total_fuel := sub_nonneg.mpr hle
    positivity
  linarith

/-- C5 witness: on `plan1` the original fuel is positive and the
confidence score is exactly the floor 0.70. -/
theorem C5_witness :
    res1.confidence_score = min 0.95 (0.70 + res1.savings_percentage / 100) ∧
    res1.confidence_score ≤ 0.95 ∧
    (0 < res1.original_fuel → 0.70 ≤ res1.confidence_score) :=
  C5_confidence_formula simpleOps plan1 [] res1 optimize_plan1

/-- A concrete two-waypoint plan (abstract equatorial points two degrees
of latitude apart), defaults otherwise. -/
def plan3 : FlightPlan :=
  { flight_id := "T3", origin := "P", destination := "Q",
    aircraft_type := "B737-800",
    route_waypoints := [{ name := "P", latitude := 0, longitude := 0 },
                        { name := "Q", latitude := 2, longitude := 0 }],
    planned_fuel := 15000 }

/-- A single reading with a 2000-knot wind from 270°: legal under the
weather contract (speed ≥ 0, direction in [0,360)), and a headwind
component of −1000 knots under the engine's simplified formula. -/
def weather3 : List WeatherCondition :=
  [{ location := "P", temperature := 15, wind_speed := 2000,
     wind_direction := 270, visibility := 10, conditions := "Clear" }]

/-- The fully evaluated estimate for `plan3` at altitude 36000 with
the 2000-knot-headwind reading: the ground speed is −550 knots and the
flight time is negative, with no failure. -/
def est3 : FuelEstimate :=
  { distance_nm := 68801/10, flight_time_hours := -1251/100,
    fuel_burn_rate := 12793/5, cruise_fuel := -32006,
    reserve_fuel := -321, total_fuel := -32327,
    altitude_factor := 1, weight_factor := 533/500,
    avg_wind_impact := -1000, ground_speed := -550 }

theorem est_plan3_36000 :
    estimate_fuel_consumption simpleOps plan3 weather3 36000 = some est3 := by
  norm_num [estimate_fuel_consumption, lookup_aircraft, AIRCRAFT_DB, B737_800, plan3,
    weather3, calculate_route_distance, calculate_distance, calculate_wind_impact,
    windImpactSum, windComponent, radians, simpleOps,
    calculate_altitude_factor, round1, round2, round3, roundHalfEven, Int.even_iff, est3]

/-- C3: the source computes `flight_time_hours = distance / ground_speed`
with no guard on non-positive ground speed and no
`InvalidGroundSpeedError` anywhere in the repository: at the failing
input the estimator succeeds with ground speed −550 knots and a negative
flight time instead of failing. -/
theorem C3_no_ground_speed_guard :
    estimate_fuel_consumption simpleOps plan3 weather3 36000 = some est3 ∧
    est3.ground_speed = -550 ∧ est3.flight_time_hours < 0 :=
  ⟨est_plan3_36000, by norm_num [est3]⟩

/-- A concrete two-waypoint plan for the wind-impact refutation. -/
def plan2 : FlightPlan :=
  { flight_id := "T2", origin := "P", destination := "Q",
    aircraft_type := "B737-800",
    route_waypoints := [{ name := "P", latitude := 10, longitude := 0 },
                        { name := "Q", latitude := 12, longitude := 0 }],
    planned_fuel := 15000 }

/-- Two readings for the one-leg route `plan2`: the loop only
accumulates the first (index 0 < 1 leg) but divides by 2. -/
def weather2 : List WeatherCondition :=
  [{ location := "P", temperature := 15, wind_speed := 0,
     wind_direction := 0, visibility := 10, conditions := "Clear" },
   { location := "Q", temperature := 15, wind_speed := 100,
     wind_direction := 90, visibility := 10, conditions := "Clear" }]

/-- C2 counterexample: with two readings on a one-leg route the code
drops the second reading from the sum but counts it in the denominator:
the code yields 0 while the spec's mean of all readings is 25. -/
theorem C2_counterexample :
    calculate_wind_impact plan2 weather2 = 0 ∧
    windImpactSpec weather2 = 25 ∧
    calculate_wind_impact plan2 weather2 ≠ windImpactSpec weather2 := by
  have hne : weather2 ≠ [] := by simp [weather2]
  have e1 : calculate_wind_impact plan2 weather2 = 0 := by
    unfold calculate_wind_impact
    rw [if_neg hne]
    norm_num [windImpactSum, windComponent, plan2, weather2]
  have e2 : windImpactSpec weather2 = 25 := by
    unfold windImpactSpec
    rw [if_neg hne]
    norm_num [windComponent, weather2]
  exact ⟨e1, e2, by rw [e1, e2]; norm_num⟩

/-- Closed form of the enumeration loop: starting at index `i`, the loop
adds the components of exactly the first `n - i` readings. -/
theorem windImpactSum_eq (n : ℕ) :
    ∀ (l : List WeatherCondition) (i : ℕ),
      windImpactSum n i l = ((l.take (n - i)).map windComponent).sum := by
  intro l
  induction l with
  | nil => intro i; simp [windImpactSum]
  | cons w rest ih =>
    intro i
    by_cases hi : i < n
    · have hsub : n - i = (n - (i + 1)) + 1 := by omega
      simp only [windImpactSum, if_pos hi, ih (i + 1), hsub, List.take_succ_cons,
        List.map_cons, List.sum_cons]
    · have hsub : n - i = 0 := by omega
      have hsub2 : n - (i + 1) = 0 := by omega
      simp only [windImpactSum, if_neg hi, ih (i + 1), hsub, hsub2, List.take_zero,
        List.map_nil, List.sum_nil, zero_add]

/-- C2 as amended: the wind impact equals the sum of the per-reading
components of only those readings whose index is below the number of
route legs (`len(route_waypoints) - 1`), divided by the total number of
readings; it is 0 when the reading list is empty.  (It agrees with the
spec's mean over all readings exactly when no reading is left unpaired
with a leg.) -/
theorem C2_wind_impact_formula (plan : FlightPlan) (weather : List WeatherCondition) :
    calculate_wind_impact plan weather =
      ((weather.take (plan.route_waypoints.length - 1)).map windComponent).sum /
        (weather.length : ℚ) := by
  unfold calculate_wind_impact
  by_cases hw : weather = []
  · subst hw; simp
  · rw [if_neg hw, windImpactSum_eq (plan.route_waypoints.length - 1) weather 0]
    simp

/-- C7: the altitude factor equals
`1.0 + (|altitude - optimal| / 2000) * 0.015`, is symmetric around the
optimal altitude, and is monotonically non-decreasing in the deviation
magnitude. -/
theorem C7_altitude_factor (optimal a b : ℤ) :
    calculate_altitude_factor a optimal =
      1 + ((|a - optimal| : ℤ) : ℚ) / 2000 * 0.015 ∧
    (|a - optimal| = |b - optimal| →
      calculate_altitude_factor a optimal = calculate_altitude_factor b optimal) ∧
    (|a - optimal| ≤ |b - optimal| →
      calculate_altitude_factor a optimal ≤ calculate_altitude_factor b optimal) := by
  refine ⟨by norm_num [calculate_altitude_factor], ?_, ?_⟩
  · intro h
    unfold calculate_altitude_factor
    rw [h]
  · intro h
    simp only [calculate_altitude_factor]
    have hc : ((|a - optimal| : ℤ) : ℚ) ≤ ((|b - optimal| : ℤ) : ℚ) := by
      exact_mod_cast h
    linarith

/-- C7 witness: altitudes 38000 and 34000 are equidistant (2000 ft) from
the optimum 36000. -/
theorem C7_witness :
    calculate_altitude_factor 38000 36000 =
      1 + ((|38000 - 36000| : ℤ) : ℚ) / 2000 * 0.015 ∧
    calculate_altitude_factor 38000 36000 = calculate_altitude_factor 34000 36000 ∧
    calculate_altitude_factor 38000 36000 ≤ calculate_altitude_factor 34000 36000 :=
  ⟨(C7_altitude_factor 36000 38000 34000).1,
   (C7_altitude_factor 36000 38000 34000).2.1 (by decide),
   (C7_altitude_factor 36000 38000 34000).2.2 (by decide)⟩

/-- C8: for waypoints with valid coordinates, the haversine distance is
symmetric and zero on coincident points, given the analytic facts the
formula relies on: `sin` is odd (hence `sin 0 = 0`), `sqrt 0 = 0` and
`asin 0 = 0`. -/
theorem C8_distance_symm_and_refl (t : TrigOps)
    (hsin : ∀ x, t.sin (-x) = - t.sin x)
    (hsqrt : t.sqrt 0 = 0) (hasin : t.asin 0 = 0)
    (a b : Waypoint)
    (_ha : -90 ≤ a.latitude ∧ a.latitude ≤ 90 ∧ -180 ≤ a.longitude ∧ a.longitude ≤ 180)
    (_hb : -90 ≤ b.latitude ∧ b.latitude ≤ 90 ∧ -180 ≤ b.longitude ∧ b.longitude ≤ 180) :
    calculate_distance t a b = calculate_distance t b a ∧
    calculate_distance t a a = 0 := by
  have h1 : ∀ x y : ℚ, (t.sin ((x - y) / 2))^2 = (t.sin ((y - x) / 2))^2 := by
    intro x y
    have hx : (x - y) / 2 = -((y - x) / 2) := by ring
    rw [hx, hsin]
    ring
  have hs0 : t.sin 0 = 0 := by
    have h := hsin 0
    rw [neg_zero] at h
    linarith
  constructor
  · have key : ∀ la lb loa lob : ℚ,
        (t.sin ((lb - la) / 2))^2 + t.cos la * t.cos lb * (t.sin ((lob - loa) / 2))^2 =
        (t.sin ((la - lb) / 2))^2 + t.cos lb * t.cos la * (t.sin ((loa - lob) / 2))^2 := by
      intro la lb loa lob
      rw [h1 lb la, h1 lob loa]
      ring
    simp only [calculate_distance]
    rw [key (radians t a.latitude) (radians t b.latitude)
      (radians t a.longitude) (radians t b.longitude)]
  · simp only [calculate_distance, sub_self, zero_div, hs0]
    norm_num [hsqrt, hasin]

/-- C8 witness: the theorem at the computable instance `simpleOps`
(whose `sin` is odd and fixes 0, as do `sqrt` and `asin`) and two
concrete valid waypoints. -/
theorem C8_witness :
    calculate_distance simpleOps { name := "J", latitude := 40, longitude := -73 }
      { name := "L", latitude := 33, longitude := -118 } =
    calculate_distance simpleOps { name := "L", latitude := 33, longitude := -118 }
      { name := "J", latitude := 40, longitude := -73 } ∧
    calculate_distance simpleOps { name := "J", latitude := 40, longitude := -73 }
      { name := "J", latitude := 40, longitude := -73 } = 0 :=
  C8_distance_symm_and_refl simpleOps (fun x => rfl) rfl rfl
    { name := "J", latitude := 40, longitude := -73 }
    { name := "L", latitude := 33, longitude := -118 }
    (by norm_num) (by norm_num)

/-- C9: a plan whose aircraft type is not a key of `AIRCRAFT_DB` is
estimated exactly as the identical plan with type "B737-800": the lookup
silently falls back to the default profile and no failure is introduced. -/
theorem C9_unknown_aircraft_default (t : TrigOps) (plan : FlightPlan)
    (w : List WeatherCondition) (alt : ℤ)
    (h : AIRCRAFT_DB plan.aircraft_type = none) :
    estimate_fuel_consumption t plan w alt =
      estimate_fuel_consumption t { plan with aircraft_type := "B737-800" } w alt := by
  unfold estimate_fuel_consumption lookup_aircraft calculate_wind_impact
  rw [h]
  norm_num [AIRCRAFT_DB]

/-- C9 witness: the theorem at a plan with the unknown type
"Unknown-999". -/
theorem C9_witness :
    estimate_fuel_consumption simpleOps { plan1 with aircraft_type := "Unknown-999" } [] 36000 =
      estimate_fuel_consumption simpleOps
        { { plan1 with aircraft_type := "Unknown-999" } with aircraft_type := "B737-800" } [] 36000 :=
  C9_unknown_aircraft_default simpleOps { plan1 with aircraft_type := "Unknown-999" } [] 36000
    (by decide)

/-- Every lookup lands on one of the three static profiles. -/
theorem lookup_aircraft_cases (s : String) :
    lookup_aircraft s = B737_800 ∨ lookup_aircraft s = A320 ∨
      lookup_aircraft s = B777_300 := by
  unfold lookup_aircraft AIRCRAFT_DB
  split_ifs <;> simp

/-- Numeric bounds shared by all profiles in the static table. -/
theorem aircraft_bounds (s : String) :
    2300 ≤ (lookup_aircraft s).fuel_burn_rate_base ∧
    447 ≤ ((lookup_aircraft s).cruise_speed : ℚ) ∧
    0 < ((lookup_aircraft s).weight_empty : ℚ) := by
  rcases lookup_aircraft_cases s with h | h | h <;>
    rw [h] <;> norm_num [B737_800, A320, B777_300]

/-- Half-even rounding moves a value down by at most 1/2. -/
theorem roundHalfEven_ge (y : ℚ) : y - 1/2 ≤ (roundHalfEven y : ℚ) := by
  simp only [roundHalfEven]
  have h1 : (⌊y⌋ : ℚ) ≤ y := Int.floor_le y
  have h2 : y < ⌊y⌋ + 1 := Int.lt_floor_add_one y
  split_ifs with ha hb hc
  · linarith
  · push_cast
    linarith
  · linarith
  · push_cast
    linarith

/-- Rounding to one decimal moves a value down by at most 1/20. -/
theorem round1_lower (x : ℚ) : x - 1/20 ≤ round1 x := by
  have h := roundHalfEven_ge (x * 10)
  unfold round1
  linarith

/-- The altitude factor is at least 1. -/
theorem altitude_factor_ge_one (a o : ℤ) : 1 ≤ calculate_altitude_factor a o := by
  simp only [calculate_altitude_factor]
  have h : (0:ℚ) ≤ ((|a - o| : ℤ) : ℚ) := Int.cast_nonneg.mpr (abs_nonneg _)
  linarith

/-- Product of a factor at least 2300 with two factors at least 1. -/
theorem mul_lower_2300 (B A W : ℚ) (hB : 2300 ≤ B) (hA : 1 ≤ A) (hW : 1 ≤ W) :
    2300 ≤ B * A * W := by
  have h1 : 2300 ≤ B * A := by nlinarith
  nlinarith

/-- Arithmetic core: with burn rate at least 2300, nonnegative flight
distance and positive ground speed, the rounded total with reserves is
positive (it is at least 1150 − 1/20). -/
theorem round_total_pos (R D GS : ℚ) (hR : 2300 ≤ R) (hD : 0 ≤ D) (hGS : 0 < GS) :
    0 < round1 (R * (D / GS) + (R * (D / GS) * 0.05 + R * 0.5)) := by
  have hft : 0 ≤ D / GS := div_nonneg hD (le_of_lt hGS)
  have htf : 0 ≤ R * (D / GS) := mul_nonneg (by linarith) hft
  have hlow := round1_lower (R * (D / GS) + (R * (D / GS) * 0.05 + R * 0.5))
  nlinarith

/-- A successful estimate with nonnegative cargo and passenger count,
nonnegative route distance and positive ground speed has strictly
positive total fuel: the reserve includes the 30-minute holding burn
`fuel_burn_rate * 0.5` and the burn rate is at least the base rate. -/
theorem total_fuel_pos_core (t : TrigOps) (plan : FlightPlan)
    (w : List WeatherCondition) (alt : ℤ) (f : FuelEstimate)
    (hcargo : 0 ≤ plan.cargo_weight) (hpax : 0 ≤ plan.passenger_count)
    (hdist : 0 ≤ calculate_route_distance t plan.route_waypoints)
    (hgs : 0 < ((lookup_aircraft plan.aircraft_type).cruise_speed : ℚ) +
      calculate_wind_impact plan w)
    (hE : estimate_fuel_consumption t plan w alt = some f) :
    0 < f.total_fuel := by
  simp only [estimate_fuel_consumption] at hE
  rw [if_neg (ne_of_gt hgs)] at hE
  injection hE with hf
  subst hf
  rcases aircraft_bounds plan.aircraft_type with ⟨hbase, hspeed, hempty⟩
  have hAF := altitude_factor_ge_one alt (lookup_aircraft plan.aircraft_type).optimal_cruise_altitude
  have hnum : (0:ℤ) ≤ (lookup_aircraft plan.aircraft_type).weight_empty +
      plan.cargo_weight + plan.passenger_count * 90 -
      (lookup_aircraft plan.aircraft_type).weight_empty := by
    have h90 : (0:ℤ) ≤ plan.passenger_count * 90 := by positivity
    omega
  have hnumq : (0:ℚ) ≤ (((lookup_aircraft plan.aircraft_type).weight_empty +
      plan.cargo_weight + plan.passenger_count * 90 -
      (lookup_aircraft plan.aircraft_type).weight_empty : ℤ) : ℚ) :=
    Int.cast_nonneg.mpr hnum
  have hWF : 1 ≤ 1 + (((lookup_aircraft plan.aircraft_type).weight_empty +
      plan.cargo_weight + plan.passenger_count * 90 -
      (lookup_aircraft plan.aircraft_type).weight_empty : ℤ) : ℚ) /
      ((lookup_aircraft plan.aircraft_type).weight_empty : ℚ) * 0.15 := by
    have hterm : (0:ℚ) ≤ (((lookup_aircraft plan.aircraft_type).weight_empty +
        plan.cargo_weight + plan.passenger_count * 90 -
        (lookup_aircraft plan.aircraft_type).weight_empty : ℤ) : ℚ) /
        ((lookup_aircraft plan.aircraft_type).weight_empty : ℚ) * 0.15 :=
      mul_nonneg (div_nonneg hnumq (le_of_lt hempty)) (by norm_num)
    linarith
  exact round_total_pos _ _ _ (mul_lower_2300 _ _ _ hbase hAF hWF) hdist hgs

/-- C10 as amended: for every plan with nonnegative cargo weight and
passenger count, nonnegative route distance (as the real haversine
guarantees) and positive ground speed, a successful estimate has
strictly positive total fuel, because the reserve always includes the
30-minute holding burn at a strictly positive burn rate; hence the
`savings_percentage` division in `optimize_flight` is well defined at
such plans. -/
theorem C10_total_fuel_positive (t : TrigOps) (plan : FlightPlan)
    (w : List WeatherCondition) (alt : ℤ) (f : FuelEstimate)
    (hcargo : 0 ≤ plan.cargo_weight) (hpax : 0 ≤ plan.passenger_count)
    (hdist : 0 ≤ calculate_route_distance t plan.route_waypoints)
    (hgs : 0 < ((lookup_aircraft plan.aircraft_type).cruise_speed : ℚ) +
      calculate_wind_impact plan w)
    (hE : estimate_fuel_consumption t plan w alt = some f) :
    0 < f.total_fuel :=
  total_fuel_pos_core t plan w alt f hcargo hpax hdist hgs hE

/-- C10 witness: the theorem at `plan1` (cargo 5000 ≥ 0, 150 passengers,
zero distance, ground speed 450). -/
theorem C10_witness : 0 < est1.total_fuel :=
  C10_total_fuel_positive simpleOps plan1 [] 36000 est1
    (by norm_num [plan1]) (by norm_num [plan1])
    (by norm_num [calculate_route_distance, plan1])
    (by norm_num [lookup_aircraft, AIRCRAFT_DB, B737_800, plan1, calculate_wind_impact])
    est_plan1_36000

/-- A plan identical to `plan1` but with cargo weight −400000 kg: the
`pydantic` model imposes no lower bound on `cargo_weight`, and the
`InvalidFlightPlanError` validation the spec describes does not exist in
the repository. -/
def planNeg : FlightPlan := { plan1 with cargo_weight := -400000 }

/-- The evaluated estimate for `planNeg`: a negative weight factor and a
negative burn rate. -/
def estNeg : FuelEstimate :=
  { distance_nm := 0, flight_time_hours := 0, fuel_burn_rate := -9129/10,
    cruise_fuel := 0, reserve_fuel := -2282/5, total_fuel := -2282/5,
    altitude_factor := 1, weight_factor := -19/50, avg_wind_impact := 0,
    ground_speed := 450 }

theorem est_planNeg_36000 :
    estimate_fuel_consumption simpleOps planNeg [] 36000 = some estNeg := by
  norm_num [estNeg, estimate_fuel_consumption, lookup_aircraft, AIRCRAFT_DB, B737_800,
    planNeg, plan1, calculate_route_distance, calculate_distance, calculate_wind_impact,
    calculate_altitude_factor, round1, round2, round3, roundHalfEven, Int.even_iff]

/-- C10 counterexample: at `planNeg` the ground speed is 450 (positive)
yet the estimated total fuel is −456.4 kg: the burn rate is not
strictly positive for every constructible FlightPlan. -/
theorem C10_counterexample :
    0 < ((lookup_aircraft planNeg.aircraft_type).cruise_speed : ℚ) +
      calculate_wind_impact planNeg [] ∧
    estimate_fuel_consumption simpleOps planNeg [] 36000 = some estNeg ∧
    estNeg.total_fuel < 0 :=
  ⟨by norm_num [lookup_aircraft, AIRCRAFT_DB, B737_800, planNeg, plan1,
      calculate_wind_impact],
   est_planNeg_36000, by norm_num [estNeg]⟩

/-- A one-waypoint route has no legs, so its distance is zero. -/
theorem route_distance_single (t : TrigOps) (wps : List Waypoint)
    (h : wps.length = 1) : calculate_route_distance t wps = 0 := by
  obtain ⟨a, rfl⟩ := List.length_eq_one.mp h
  simp [calculate_route_distance]

/-- With zero legs the enumeration loop accumulates nothing. -/
theorem windImpactSum_zero : ∀ (i : ℕ) (l : List WeatherCondition),
    windImpactSum 0 i l = 0 := by
  intro i l
  induction l generalizing i with
  | nil => simp [windImpactSum]
  | cons w rest ih => simp [windImpactSum, ih]

/-- On a one-waypoint route every reading is unpaired, so the wind
impact is zero for any reading list. -/
theorem wind_impact_single (plan : FlightPlan) (w : List WeatherCondition)
    (h : plan.route_waypoints.length = 1) : calculate_wind_impact plan w = 0 := by
  unfold calculate_wind_impact
  rw [h]
  split_ifs <;> simp [windImpactSum_zero]

/-- The estimator succeeds whenever the ground speed is nonzero. -/
theorem estimate_some (t : TrigOps) (plan : FlightPlan)
    (w : List WeatherCondition) (alt : ℤ)
    (hgs : ((lookup_aircraft plan.aircraft_type).cruise_speed : ℚ) +
      calculate_wind_impact plan w ≠ 0) :
    ∃ f, estimate_fuel_consumption t plan w alt = some f := by
  simp only [estimate_fuel_consumption]
  rw [if_neg hgs]
  exact ⟨_, rfl⟩

/-- The sweep succeeds when every candidate estimate succeeds. -/
theorem sweep_some (t : TrigOps) (plan : FlightPlan) (w : List WeatherCondition)
    (h : ∀ alt : ℤ, ∃ f, estimate_fuel_consumption t plan w alt = some f) :
    ∀ (alts : List ℤ) (p : ℤ × ℚ), ∃ q, altitudeSweep t plan w alts p = some q := by
  intro alts
  induction alts with
  | nil => intro p; exact ⟨p, rfl⟩
  | cons alt rest ih =>
    intro p
    obtain ⟨f, hf⟩ := h alt
    obtain ⟨q, hq⟩ := ih (if f.total_fuel < p.2 then (alt, f.total_fuel) else p)
    refine ⟨q, ?_⟩
    simp only [altitudeSweep, hf]
    exact hq

/-- The jet-stream analysis succeeds on any non-empty waypoint list. -/
theorem js_some (wps : List Waypoint) (alt : ℤ) (h : wps.length ≠ 0) :
    ∃ j, get_jet_stream_info wps alt = some j := by
  unfold get_jet_stream_info
  by_cases h1 : 30000 ≤ alt ∧ alt ≤ 42000
  · rw [if_pos h1, if_neg h]
    dsimp only
    split_ifs <;> exact ⟨_, rfl⟩
  · rw [if_neg h1]
    exact ⟨_, rfl⟩

/-- C4 as amended: on a route with exactly one waypoint (with
nonnegative cargo weight and passenger count) the full optimization,
jet-stream analysis included, completes, and the route distance of the
degenerate estimate is 0.  (On a zero-waypoint route the jet-stream
analysis divides by the number of waypoints and fails.) -/
theorem C4_single_waypoint_completes (t : TrigOps) (plan : FlightPlan)
    (w : List WeatherCondition)
    (hlen : plan.route_waypoints.length = 1)
    (hcargo : 0 ≤ plan.cargo_weight) (hpax : 0 ≤ plan.passenger_count) :
    (optimize_flight t plan w).isSome = true ∧
    calculate_route_distance t plan.route_waypoints = 0 := by
  have hd : calculate_route_distance t plan.route_waypoints = 0 :=
    route_distance_single t plan.route_waypoints hlen
  have hw0 : calculate_wind_impact plan w = 0 := wind_impact_single plan w hlen
  rcases aircraft_bounds plan.aircraft_type with ⟨hbase, hspeed, hempty⟩
  have hgs : 0 < ((lookup_aircraft plan.aircraft_type).cruise_speed : ℚ) +
      calculate_wind_impact plan w := by
    rw [hw0]
    linarith
  have hsome : ∀ alt : ℤ, ∃ f, estimate_fuel_consumption t plan w alt = some f :=
    fun alt => estimate_some t plan w alt (ne_of_gt hgs)
  obtain ⟨o, hO⟩ := hsome plan.cruise_altitude
  have hOpos : 0 < o.total_fuel :=
    total_fuel_pos_core t plan w plan.cruise_altitude o hcargo hpax
      (le_of_eq hd.symm) hgs hO
  obtain ⟨q, hS⟩ := sweep_some t plan w hsome altitude_options
    (plan.cruise_altitude, o.total_fuel)
  obtain ⟨j, hJ⟩ := js_some plan.route_waypoints q.1 (by rw [hlen]; exact one_ne_zero)
  obtain ⟨oc, hC⟩ := hsome q.1
  refine ⟨?_, hd⟩
  simp only [optimize_flight, hO, hS, hJ, hC]
  rw [if_neg (ne_of_gt hOpos)]
  rfl

/-- C4 witness: the theorem at the one-waypoint plan `plan1`. -/
theorem C4_witness :
    (optimize_flight simpleOps plan1 []).isSome = true ∧
    calculate_route_distance simpleOps plan1.route_waypoints = 0 :=
  C4_single_waypoint_completes simpleOps plan1 [] rfl
    (by norm_num [plan1]) (by norm_num [plan1])

/-- A plan identical to `plan1` but with an empty route. -/
def planEmpty : FlightPlan := { plan1 with route_waypoints := [] }

/-- C4 counterexample: on the empty route the altitude sweep settles on
36000 ft, which is inside the jet-stream band `[30000, 42000]`, so
`get_jet_stream_info` divides by `len(waypoints) = 0` and the whole
optimization fails rather than completing. -/
theorem C4_counterexample : optimize_flight simpleOps planEmpty [] = none := by
  norm_num [optimize_flight, planEmpty, plan1, estimate_fuel_consumption,
    lookup_aircraft, AIRCRAFT_DB, B737_800, calculate_route_distance,
    calculate_wind_impact, calculate_altitude_factor, round1, round2, round3,
    roundHalfEven, Int.even_iff, altitudeSweep, altitude_options,
    get_jet_stream_info, min_def]

theorem est_planNeg_32000 :
    estimate_fuel_consumption simpleOps planNeg [] 32000 =
    some { distance_nm := 0, flight_time_hours := 0, fuel_burn_rate := -4701/5,
           cruise_fuel := 0, reserve_fuel := -4701/10, total_fuel := -4701/10,
           altitude_factor := 103/100, weight_factor := -19/50, avg_wind_impact := 0,
           ground_speed := 450 } := by
  norm_num [estimate_fuel_consumption, lookup_aircraft, AIRCRAFT_DB, B737_800,
    planNeg, plan1, calculate_route_distance, calculate_distance, calculate_wind_impact,
    calculate_altitude_factor, round1, round2, round3, roundHalfEven, Int.even_iff]

theorem est_planNeg_34000 :
    estimate_fuel_consumption simpleOps planNeg [] 34000 =
    some { distance_nm := 0, flight_time_hours := 0, fuel_burn_rate := -4633/5,
           cruise_fuel := 0, reserve_fuel := -4633/10, total_fuel := -4633/10,
           altitude_factor := 203/200, weight_factor := -19/50, avg_wind_impact := 0,
           ground_speed := 450 } := by
  norm_num [estimate_fuel_consumption, lookup_aircraft, AIRCRAFT_DB, B737_800,
    planNeg, plan1, calculate_route_distance, calculate_distance, calculate_wind_impact,
    calculate_altitude_factor, round1, round2, round3, roundHalfEven, Int.even_iff]

theorem est_planNeg_38000 :
    estimate_fuel_consumption simpleOps planNeg [] 38000 =
    some { distance_nm := 0, flight_time_hours := 0, fuel_burn_rate := -4633/5,
           cruise_fuel := 0, reserve_fuel := -4633/10, total_fuel := -4633/10,
           altitude_factor := 203/200, weight_factor := -19/50, avg_wind_impact := 0,
           ground_speed := 450 } := by
  norm_num [estimate_fuel_consumption, lookup_aircraft, AIRCRAFT_DB, B737_800,
    planNeg, plan1, calculate_route_distance, calculate_distance, calculate_wind_impact,
    calculate_altitude_factor, round1, round2, round3, roundHalfEven, Int.even_iff]

theorem est_planNeg_40000 :
    estimate_fuel_consumption simpleOps planNeg [] 40000 =
    some { distance_nm := 0, flight_time_hours := 0, fuel_burn_rate := -4701/5,
           cruise_fuel := 0, reserve_fuel := -4701/10, total_fuel := -4701/10,
           altitude_factor := 103/100, weight_factor := -19/50, avg_wind_impact := 0,
           ground_speed := 450 } := by
  norm_num [estimate_fuel_consumption, lookup_aircraft, AIRCRAFT_DB, B737_800,
    planNeg, plan1, calculate_route_distance, calculate_distance, calculate_wind_impact,
    calculate_altitude_factor, round1, round2, round3, roundHalfEven, Int.even_iff]

theorem sweep_planNeg :
    altitudeSweep simpleOps planNeg [] altitude_options (36000, -(2282/5)) =
    some (32000, -(4701/10)) := by
  norm_num [altitude_options, altitudeSweep, estNeg, est_planNeg_32000,
    est_planNeg_34000, est_planNeg_36000, est_planNeg_38000, est_planNeg_40000]

/-- The fully evaluated result of `optimize_flight` on `planNeg` with no
weather readings: the negative burn rate makes every total negative, so
the sweep moves to 32000 ft (−470.1 < −456.4), the savings 13.7 kg are
positive while the original fuel −456.4 is negative, and the confidence
score is 15289/22820 ≈ 0.66998. -/
def resNeg : OptimizationResult :=
  { flight_id := "T1", original_fuel := -2282/5, optimized_fuel := -4701/10,
    fuel_savings := 137/10, savings_percentage := -3425/1141, time_impact := 2,
    confidence_score := 15289/22820,
    recommendation_type := RecommendationType.ALTITUDE_OPTIMIZATION,
    optimized_altitude := 32000, cost_savings := 2329/200 }

theorem optimize_planNeg : optimize_flight simpleOps planNeg [] = some resNeg := by
  have h36 : planNeg.cruise_altitude = 36000 := rfl
  have hwp : planNeg.route_waypoints =
    [{ name := "A", latitude := 40, longitude := -73 }] := rfl
  have hfid : planNeg.flight_id = "T1" := rfl
  norm_num [optimize_flight, h36, hwp, hfid, estNeg, est_planNeg_36000,
    est_planNeg_32000, sweep_planNeg, get_jet_stream_info, resNeg,
    FUEL_PRICE_PER_KG, min_def]

/-- C5 counterexample, exercising no trigonometry: `planNeg` has a
single waypoint (zero legs, so the route distance is 0 under any
transcendental operations), no weather readings (ground speed 450) and
the unvalidated cargo weight −400000 kg.  Every candidate total fuel is
negative, the sweep moves off the seed, the savings are positive while
the original fuel is negative, so the savings percentage is negative
and the confidence score 15289/22820 ≈ 0.66998 falls below the claimed
floor 0.70. -/
theorem C5_counterexample :
    optimize_flight simpleOps planNeg [] = some resNeg ∧
    resNeg.confidence_score < 70/100 :=
  ⟨optimize_planNeg, by norm_num [resNeg]⟩

end FuelOpt
